import Mathlib

/-!
Shallow embedding of the disastle-rust core (castle subsystem and game
state machine) together with proofs checking the natural-language
specification against it.

Conventions of the embedding:
* Rust `HashMap<K, V>` is an association list `List (K × V)`; insertion
  replaces an existing binding or appends, removal filters the key out,
  so key sets stay unique and lengths track `HashMap::len`.
* `petgraph::Graph<Pos, u8, Undirected>` is `PGraph`: a node list
  (index = `NodeIndex`) and an edge list of index pairs.
  `PGraph.remove_node` follows petgraph's swap-remove semantics: edges
  incident to the removed index are dropped and the last node is moved
  into the removed slot (edge endpoints are renumbered accordingly).
* Rust mutators `fn f(&mut self, ...) -> Result<T, E>` become functions
  returning the new value; operations that can panic (`unwrap`,
  `expect`, `unreachable!`, out-of-bounds indexing) return `Option`,
  with `none` as the panic outcome.
* Machine integers: positions are `Int × Int`; the `u32` link counters
  and lengths are `Nat` (they are only incremented and divided, never
  subtracted, so no wraparound is reachable in the modelled code).
* Randomness (`ThreadRng`) is not representable; where the source
  shuffles or draws, the embedding takes the outcome (a permutation or
  a drawn element) as an explicit parameter.
-/

/-- Position on the integer lattice: `type Pos = (i32, i32)`. -/
abbrev Pos := Int × Int

/-- `Connection` from src/castle/room/connection.rs. -/
inductive Connection
  | none
  | any
  | diamond (gold : Bool)
  | cross (gold : Bool)
  | moon (gold : Bool)
deriving DecidableEq, Repr

/-- `Link` from src/castle/room/connection.rs. -/
inductive Link
  | any
  | diamond
  | cross
  | moon
deriving DecidableEq, Repr

/-- The Rust `matches!(c, Connection::None)` test. -/
def Connection.isNone : Connection → Bool
  | .none => true
  | _ => false

/-- The Rust `matches!(c, Connection::Diamond(_))` test. -/
def Connection.isDiamond : Connection → Bool
  | .diamond _ => true
  | _ => false

/-- The Rust `matches!(c, Connection::Cross(_))` test. -/
def Connection.isCross : Connection → Bool
  | .cross _ => true
  | _ => false

/-- The Rust `matches!(c, Connection::Moon(_))` test. -/
def Connection.isMoon : Connection → Bool
  | .moon _ => true
  | _ => false

/-- `Connection::connect` (connection.rs lines 21-24). -/
def Connection.connect (self other : Connection) : Bool :=
  (self.isNone && other.isNone) || (!self.isNone && !other.isNone)

/-- `Connection::link` (connection.rs lines 25-39). -/
def Connection.link : Connection → Connection → Option Link
  | .any, .any => some .any
  | .any, .diamond _ => some .diamond
  | .any, .cross _ => some .cross
  | .any, .moon _ => some .moon
  | .diamond _, .any => some .diamond
  | .cross _, .any => some .cross
  | .moon _, .any => some .moon
  | .diamond _, .diamond _ => some .diamond
  | .cross _, .cross _ => some .cross
  | .moon _, .moon _ => some .moon
  | _, _ => Option.none

/-- `Connection::powered` (connection.rs lines 40-57). -/
def Connection.powered : Connection → Connection → Option Bool
  | .none, _ => Option.none
  | .any, _ => Option.none
  | .diamond gold, other =>
      match gold with
      | false => Option.none
      | true => some other.isDiamond
  | .cross gold, other =>
      match gold with
      | false => Option.none
      | true => some other.isCross
  | .moon gold, other =>
      match gold with
      | false => Option.none
      | true => some other.isMoon

/-- `Room` from src/castle/room/mod.rs. -/
structure Room where
  id : Int
  name : String
  up : Connection
  right : Connection
  down : Connection
  left : Connection
deriving DecidableEq, Repr

/-- `Room::throne_room` (room/mod.rs lines 19-28). -/
def Room.throne_room (id : Int) (name : String) : Room :=
  { id := id, name := name, up := .any, right := .any, down := .any, left := .any }

/-- The rotated value computed inside `Room::rotate_right` (room/mod.rs
lines 29-41): the local binding `new` with the four sides cyclically
shifted.  The Rust function takes `mut self` BY VALUE, assigns these
sides into its local copy and returns `()`, so this value is dropped and
the caller observes nothing. -/
def Room.rotate_right_new (self : Room) : Room :=
  { self with up := self.left, right := self.up, down := self.right, left := self.down }

/-- The rotated value computed inside `Room::rotate_left` (room/mod.rs
lines 42-54); as with `rotate_right` the Rust function returns `()` and
drops it. -/
def Room.rotate_left_new (self : Room) : Room :=
  { self with up := self.right, right := self.down, down := self.left, left := self.up }

/-- The actual signature of `Room::rotate_right`: it consumes the room
and returns unit (no new Room is produced). -/
def Room.rotate_right (_self : Room) : Unit := ()

/-- The actual signature of `Room::rotate_left`: it consumes the room
and returns unit (no new Room is produced). -/
def Room.rotate_left (_self : Room) : Unit := ()

/-- `Room::connecting` (room/mod.rs lines 55-70). -/
def Room.connecting (self : Room) (p : Pos) : List Pos :=
  (if self.up.isNone then [] else [(p.1, p.2 + 1)])
    ++ (if self.right.isNone then [] else [(p.1 + 1, p.2)])
    ++ (if self.down.isNone then [] else [(p.1, p.2 - 1)])
    ++ (if self.left.isNone then [] else [(p.1 - 1, p.2)])

/-- `Room::up_link` (room/mod.rs line 83-85).  Note the source body is
`room.up.link(&room.down)`: it reads both sides from the NEIGHBOR
argument `room` and never uses `self`. -/
def Room.up_link (_self room : Room) : Option Link := room.up.link room.down

/-- `Room::right_link` (room/mod.rs lines 86-88); `self` unused in the
source. -/
def Room.right_link (_self room : Room) : Option Link := room.right.link room.left

/-- `Room::down_link` (room/mod.rs lines 89-91); `self` unused in the
source. -/
def Room.down_link (_self room : Room) : Option Link := room.down.link room.up

/-- `Room::left_link` (room/mod.rs lines 92-94); `self` unused in the
source. -/
def Room.left_link (_self room : Room) : Option Link := room.left.link room.right

/-- `Room::up_powered` (room/mod.rs lines 95-97).  The source body is
`room.up.powered(&room.down)`: both sides come from the neighbor
argument, `self` is unused. -/
def Room.up_powered (_self room : Room) : Option Bool := room.up.powered room.down

/-- `Room::right_powered` (room/mod.rs lines 98-100); `self` unused. -/
def Room.right_powered (_self room : Room) : Option Bool := room.right.powered room.left

/-- `Room::down_powered` (room/mod.rs lines 101-103); `self` unused. -/
def Room.down_powered (_self room : Room) : Option Bool := room.down.powered room.up

/-- `Room::left_powered` (room/mod.rs lines 104-106); `self` unused. -/
def Room.left_powered (_self room : Room) : Option Bool := room.left.powered room.right

/-- Association-list lookup, modelling `HashMap::get`. -/
def lookupAssoc {κ α : Type} [DecidableEq κ] : List (κ × α) → κ → Option α
  | [], _ => Option.none
  | (k', v') :: rest, k => if k' = k then some v' else lookupAssoc rest k

/-- Association-list insertion, modelling `HashMap::insert` (replaces an
existing binding, otherwise appends). -/
def insertAssoc {κ α : Type} [DecidableEq κ] : List (κ × α) → κ → α → List (κ × α)
  | [], k, v => [(k, v)]
  | (k', v') :: rest, k, v =>
      if k' = k then (k, v) :: rest else (k', v') :: insertAssoc rest k v

/-- Association-list removal, modelling `HashMap::remove`. -/
def removeAssoc {κ α : Type} [DecidableEq κ] (l : List (κ × α)) (k : κ) : List (κ × α) :=
  l.filter (fun e => decide (e.1 ≠ k))

/-- `petgraph::Graph<Pos, u8, Undirected>`: node weights indexed by
position in the list, edges as pairs of node indices. -/
structure PGraph where
  nodes : List Pos
  edges : List (Nat × Nat)
deriving DecidableEq, Repr

/-- `Graph::add_node`: appends the weight, returns the new graph and the
fresh `NodeIndex`. -/
def PGraph.add_node (g : PGraph) (w : Pos) : PGraph × Nat :=
  ({ g with nodes := g.nodes ++ [w] }, g.nodes.length)

/-- `Graph::add_edge` (the `u8` edge weight carries no information). -/
def PGraph.add_edge (g : PGraph) (a b : Nat) : PGraph :=
  { g with edges := g.edges ++ [(a, b)] }

/-- `Graph::remove_node` with petgraph's swap-remove semantics: edges
incident to `i` are removed, the node at the last index moves into slot
`i`, and edge endpoints that referenced the last index are renumbered to
`i`.  An out-of-range index leaves the graph unchanged (petgraph returns
`None`). -/
def PGraph.remove_node (g : PGraph) (i : Nat) : PGraph :=
  if i < g.nodes.length then
    let last := g.nodes.length - 1
    let kept := g.edges.filter (fun e => decide (e.1 ≠ i) && decide (e.2 ≠ i))
    let ren := fun (j : Nat) => if j = last then i else j
    { nodes := ((g.nodes.set i (g.nodes.getD last (0, 0))).take last),
      edges := kept.map (fun e => (ren e.1, ren e.2)) }
  else g

/-- `Graph::neighbors` of a node index (empty for a stale index). -/
def PGraph.neighbors (g : PGraph) (i : Nat) : List Nat :=
  g.edges.foldr
    (fun e acc =>
      if e.1 = i then e.2 :: acc else if e.2 = i then e.1 :: acc else acc)
    []

/-- `node_indices().find_map(...)` pattern: first node index whose
weight equals `p`. -/
def PGraph.find_node (g : PGraph) (p : Pos) : Option Nat :=
  g.nodes.findIdx? (fun q => decide (q = p))

/-- One breadth step of reachability: add every neighbor of a visited
node that is not visited yet. -/
def PGraph.reachStep (g : PGraph) (vis : List Nat) : List Nat :=
  vis.foldl (fun acc i => acc ++ (g.neighbors i).filter (fun j => !(acc.contains j))) vis

/-- Iterated breadth steps with fuel. -/
def PGraph.reachIter (g : PGraph) : Nat → List Nat → List Nat
  | 0, vis => vis
  | n + 1, vis => PGraph.reachIter g n (g.reachStep vis)

/-- Whether `t` is reachable from `s` in `g`.  This models the
`algo::astar` call in `Castle::remove_valid`: A* on a finite graph
returns `Some` exactly when a path exists (the Manhattan heuristic and
unit costs affect only which path is found). -/
def PGraph.reachable (g : PGraph) (s t : Nat) : Bool :=
  (g.reachIter g.nodes.length [s]).contains t

/-- `CastleError` from src/castle/error.rs. -/
inductive CastleError
  | invalidPos
  | invalidMove
  | invalidPlace
  | invalidRemove
  | invalidSwap
deriving DecidableEq, Repr

/-- `Castle` from src/castle/mod.rs: room map, throne positions and the
cached undirected connection graph. -/
structure Castle where
  rooms : List (Pos × Room)
  throne_rooms : List Pos
  connections : PGraph
deriving DecidableEq, Repr

/-- `Castle::new` (castle/mod.rs lines 30-38).  Note the connection
graph starts EMPTY: the throne room is inserted into `rooms` but no node
for `(0,0)` is ever added to `connections`. -/
def Castle.new (throne_room : Room) : Castle :=
  { rooms := [((0, 0), throne_room)],
    throne_rooms := [(0, 0)],
    connections := { nodes := [], edges := [] } }

/-- `Castle::num_rooms`. -/
def Castle.num_rooms (c : Castle) : Nat := c.rooms.length

/-- `Castle::free_pos` (castle/mod.rs lines 42-53): empty positions
adjacent to an occupied room through a non-`None` side (set semantics:
duplicates are not inserted twice). -/
def Castle.free_pos (c : Castle) : List Pos :=
  c.rooms.foldl
    (fun acc pr =>
      ((pr.2.connecting pr.1).filter (fun p => (lookupAssoc c.rooms p).isNone)).foldl
        (fun a p => if a.contains p then a else a ++ [p]) acc)
    []

/-- `Castle::is_powered` (castle/mod.rs lines 54-81).  Faithful to the
source: each of the four occupied neighbors is combined through
`room.up_powered(neighbor)` — the source calls `up_powered` for the up,
right, down AND left neighbors — and a missing neighbor contributes no
constraint (the accumulator starts at `true`). -/
def Castle.is_powered (c : Castle) (pos : Pos) : Except CastleError Bool :=
  match lookupAssoc c.rooms pos with
  | some room =>
      let x := pos.1
      let y := pos.2
      let step := fun (acc : Bool) (nb : Option Room) =>
        match nb with
        | some nroom =>
            match room.up_powered nroom with
            | some b => acc && b
            | Option.none => acc
        | Option.none => acc
      let r1 := step true (lookupAssoc c.rooms (x, y + 1))
      let r2 := step r1 (lookupAssoc c.rooms (x + 1, y))
      let r3 := step r2 (lookupAssoc c.rooms (x, y - 1))
      let r4 := step r3 (lookupAssoc c.rooms (x - 1, y))
      .ok r4
  | Option.none => .error .invalidPos

/-- Tally one classified link into the `(any, diamond, cross, moon)`
counters, as the `match` arms of `Castle::links` do. -/
def tallyLink : Nat × Nat × Nat × Nat → Option Link → Nat × Nat × Nat × Nat
  | (a, d, cr, m), some .any => (a + 1, d, cr, m)
  | (a, d, cr, m), some .diamond => (a, d + 1, cr, m)
  | (a, d, cr, m), some .cross => (a, d, cr + 1, m)
  | (a, d, cr, m), some .moon => (a, d, cr, m + 1)
  | t, Option.none => t

/-- `Castle::links` (castle/mod.rs lines 82-130): every room looks at
its four occupied neighbors through the directional `*_link` methods,
and each `u32` counter is divided by 2 (integer division) at the end. -/
def Castle.links (c : Castle) : Nat × Nat × Nat × Nat :=
  let t :=
    c.rooms.foldl
      (fun t pr =>
        let x := pr.1.1
        let y := pr.1.2
        let room := pr.2
        let t :=
          match lookupAssoc c.rooms (x, y + 1) with
          | some up_room => tallyLink t (room.up_link up_room)
          | Option.none => t
        let t :=
          match lookupAssoc c.rooms (x + 1, y) with
          | some right_room => tallyLink t (room.right_link right_room)
          | Option.none => t
        let t :=
          match lookupAssoc c.rooms (x, y - 1) with
          | some down_room => tallyLink t (room.down_link down_room)
          | Option.none => t
        let t :=
          match lookupAssoc c.rooms (x - 1, y) with
          | some left_room => tallyLink t (room.left_link left_room)
          | Option.none => t
        t)
      (0, 0, 0, 0)
  (t.1 / 2, t.2.1 / 2, t.2.2.1 / 2, t.2.2.2 / 2)

/-- `Castle::place_valid` (castle/mod.rs lines 222-231): for each of the
four directions, either the neighbor cell is empty or its facing side
`connect`s with the corresponding side of the new room.  There is no
requirement that any neighbor exists. -/
def Castle.place_valid (c : Castle) (room : Room) (pos : Pos) : Bool :=
  let x := pos.1
  let y := pos.2
  let up := lookupAssoc c.rooms (x, y + 1)
  let right := lookupAssoc c.rooms (x + 1, y)
  let down := lookupAssoc c.rooms (x, y - 1)
  let left := lookupAssoc c.rooms (x - 1, y)
  (up.all fun u => u.down.connect room.up)
    && (right.all fun r => r.left.connect room.right)
    && (down.all fun d => d.up.connect room.down)
    && (left.all fun l => l.right.connect room.left)

/-- `Castle::place` (castle/mod.rs lines 152-183): guarded by
`!contains_key(pos) && place_valid`, then adds a graph node for `pos`,
edges to every occupied connecting neighbor already present in the
graph, and inserts the room. -/
def Castle.place (c : Castle) (room : Room) (pos : Pos) : Except CastleError Castle :=
  if (lookupAssoc c.rooms pos).isNone && c.place_valid room pos then
    let connected_pos := (room.connecting pos).filter (fun p => (lookupAssoc c.rooms p).isSome)
    let connected_index :=
      (List.range c.connections.nodes.length).filter
        (fun i => connected_pos.contains (c.connections.nodes.getD i (0, 0)))
    let added := c.connections.add_node pos
    let g := connected_index.foldl (fun g ci => g.add_edge added.2 ci) added.1
    .ok { c with rooms := insertAssoc c.rooms pos room, connections := g }
  else .error .invalidPlace

/-- `Castle::remove_valid` (castle/mod.rs lines 232-290): clone the
graph, find and remove the node for `pos`, then require every neighbor
OF THE REMOVED INDEX IN THE MUTATED CLONE (after petgraph's swap-remove,
that index holds whatever node was last) to reach some throne node.
Returns `false` when `pos` has no node in the graph. -/
def Castle.remove_valid (c : Castle) (pos : Pos) : Bool :=
  match c.connections.find_node pos with
  | some remove_index =>
      let test := c.connections.remove_node remove_index
      (test.neighbors remove_index).all
        (fun n =>
          c.throne_rooms.any
            (fun t =>
              match test.find_node t with
              | some throne_index => test.reachable throne_index n
              | Option.none => false))
  | Option.none => false

/-- `Castle::remove` (castle/mod.rs lines 184-196): proceeds when
`remove_valid` holds; a missing room or graph node there is an
`unreachable!`/`expect` panic, modelled as `Option.none`. -/
def Castle.remove (c : Castle) (pos : Pos) : Option (Except CastleError Castle) :=
  if c.remove_valid pos then
    if (lookupAssoc c.rooms pos).isSome then
      match c.connections.find_node pos with
      | some i =>
          some (.ok { c with rooms := removeAssoc c.rooms pos,
                             connections := c.connections.remove_node i })
      | Option.none => Option.none
    else Option.none
  else some (.error .invalidRemove)

/-- `Castle::swap_valid` (castle/mod.rs lines 291-299). -/
def Castle.swap_valid (c : Castle) (pos_1 pos_2 : Pos) : Bool :=
  match lookupAssoc c.rooms pos_1, lookupAssoc c.rooms pos_2 with
  | some room_1, some room_2 =>
      decide (pos_1 ≠ pos_2) && c.place_valid room_1 pos_2 && c.place_valid room_2 pos_1
  | _, _ => false

/-- `Castle::swap` (castle/mod.rs lines 197-207).  Faithful to the
source polarity: the swap PROCEEDS when `!swap_valid(..)`, and the two
`unwrap()` calls on `rooms.remove` panic (`Option.none`) when a position
is unoccupied. -/
def Castle.swap (c : Castle) (pos_1 pos_2 : Pos) : Option (Except CastleError Castle) :=
  if !(c.swap_valid pos_1 pos_2) then
    match lookupAssoc c.rooms pos_1 with
    | some room_1 =>
        let rest := removeAssoc c.rooms pos_1
        match lookupAssoc rest pos_2 with
        | some room_2 =>
            let rest2 := removeAssoc rest pos_2
            some (.ok { c with rooms := insertAssoc (insertAssoc rest2 pos_1 room_2) pos_2 room_1 })
        | Option.none => Option.none
    | Option.none => Option.none
  else some (.error .invalidSwap)

/-- `Castle::move_outer_valid` (castle/mod.rs lines 208-221): the moved
room must exist, have exactly one occupied connecting neighbor, be
removable, the target empty — and the final conjunct checks
`place_valid(room, pos_from)` at the SOURCE position (the source's
literal text), not at `pos_to`. -/
def Castle.move_outer_valid (c : Castle) (pos_from pos_to : Pos) : Bool :=
  match lookupAssoc c.rooms pos_from with
  | some room =>
      (((room.connecting pos_from).filter
            (fun p => (lookupAssoc c.rooms p).isSome)).length == 1)
        && c.remove_valid pos_from
        && (lookupAssoc c.rooms pos_to).isNone
        && c.place_valid room pos_from
  | Option.none => false

/-- `Castle::move_outer` (castle/mod.rs lines 134-151).  Faithful to the
source polarity: the move PROCEEDS when `!move_outer_valid(..)` and
returns `InvalidMove` when the validity predicate is true.  The
`expect`/`unreachable!` arms are modelled as `Option.none` (panic). -/
def Castle.move_outer (c : Castle) (pos_from pos_to : Pos) : Option (Except CastleError Castle) :=
  if !(c.move_outer_valid pos_from pos_to) then
    match lookupAssoc c.rooms pos_from with
    | some room =>
        match c.connections.find_node pos_from with
        | some i =>
            let c1 : Castle :=
              { c with rooms := removeAssoc c.rooms pos_from,
                       connections := c.connections.remove_node i }
            match c1.place room pos_to with
            | .ok c2 => some (.ok c2)
            | .error _ => Option.none
        | Option.none => Option.none
    | Option.none => Option.none
  else some (.error .invalidMove)

/-- `GameError` from src/game/error.rs. -/
inductive GameError
  | fullPlayers
  | invalidAction
  | invalidPlayer
  | invalidDisaster
  | invalidShopIndex
  | invalidRoomIndex
  | castleError (e : CastleError)
deriving DecidableEq, Repr

/-- A `Box<dyn Disaster>` trait object: the interface consists of
`name()` and `damage(num_previous_disasters, links)` (src/disaster). -/
structure DisasterObj where
  name : String
  damage : Nat → Nat × Nat × Nat × Nat → Nat

/-- `Card` from src/game/mod.rs lines 27-31. -/
inductive Card
  | room (r : Room)
  | disaster (d : DisasterObj)

/-- `PlayerState` from src/game/player (the variant payloads the game
operations read). -/
inductive PlayerState
  | admin (name : String)
  | lobby (name : String)
  | wait (name : String) (castle : Castle)
  | disasterPhase (name : String) (castle : Castle)
      (num_previous_disasters : Nat) (disasters : List DisasterObj)
      (remove_queue : List Pos) (damage : Nat)
  | action (name : String) (castle : Castle) (limbo : List Card)
  | end_ (name : String) (treasures : Nat) (rooms : Nat) (links : Nat)
  | dead (name : String)

/-- `TurnIterator<u32>` from src/game/mod.rs lines 481-537. -/
structure TurnIterator where
  turn_index : Nat
  turn_queue : List Nat

/-- `GameLobby` from src/game/mod.rs lines 40-50 (the `ThreadRng` field
is not representable and is omitted; randomness is passed explicitly to
the operations that use it). -/
structure GameLobby where
  players : List (Nat × PlayerState)
  num_safe : Nat
  num_shop : Nat
  num_disasters : Nat
  rooms : List Room
  disasters : List DisasterObj
  locked_disasters : List DisasterObj

/-- `GamePlay` from src/game/mod.rs lines 52-63 (again minus the
`ThreadRng`). -/
structure GamePlay where
  turn : TurnIterator
  players : List (Nat × PlayerState)
  deck : List Card
  dealt_shop : Bool
  num_shop : Nat
  shop : List Room
  discard : List Room
  previous_disasters : List DisasterObj

/-- `GameLobby::new` (game/mod.rs lines 71-82) with the default
constants `DEFAULT_NUM_SAFE = 15`, `DEFAULT_NUM_SHOP = 5`,
`DEFAULT_NUM_DISASTERS = 6`. -/
def GameLobby.new : GameLobby :=
  { players := [], num_safe := 15, num_shop := 5, num_disasters := 6,
    rooms := [], disasters := [], locked_disasters := [] }

/-- `GameLobby::add_player` (game/mod.rs lines 150-162).  The secret
drawn by `rand::random()` is taken as the parameter `secret`; the
function returns the `Result<u32>` and the updated lobby. -/
def GameLobby.add_player (l : GameLobby) (secret : Nat) (name : String) :
    Except GameError Nat × GameLobby :=
  if l.players.length = 0 then
    (.ok secret, { l with players := insertAssoc l.players secret (.admin name) })
  else if l.players.length < 5 then
    (.ok secret, { l with players := insertAssoc l.players secret (.lobby name) })
  else
    (.error .fullPlayers, l)

/-- The `safe` binding of `GameLobby::start_game` (game/mod.rs lines
106-112): `self.rooms.split_off(num_safe)` returns the elements FROM
index `num_safe` TO THE END — that is, `rooms.length - num_safe` rooms,
not `num_safe` rooms — and they are mapped to `Card::Room`.
`shuffledRooms` is the room list after the `rooms.shuffle(rng)` call. -/
def startGameSafe (shuffledRooms : List Room) (num_safe : Nat) : List Card :=
  (shuffledRooms.drop num_safe).map Card.room

/-- The `deck` binding of `GameLobby::start_game` before disasters are
appended (game/mod.rs line 113): the first `num_safe` shuffled rooms
(what `split_off` left behind in `self.rooms`). -/
def startGameLower (shuffledRooms : List Room) (num_safe : Nat) : List Card :=
  (shuffledRooms.take num_safe).map Card.room

/-- The deck built by `GameLobby::start_game` (game/mod.rs lines
105-135): lower rooms plus the picked disaster cards are shuffled
(`shuffleUpper` is the permutation outcome of `deck.shuffle(rng)`), and
the `safe` segment is appended at the END — the end is the top of the
deck, since dealing pops from the end. -/
def startGameDeck (shuffledRooms : List Room) (pickedDisasters : List Card)
    (shuffleUpper : List Card → List Card) (num_safe : Nat) : List Card :=
  shuffleUpper (startGameLower shuffledRooms num_safe ++ pickedDisasters)
    ++ startGameSafe shuffledRooms num_safe

/-- Result of the shop-dealing loop in `GamePlay::update_game_states`:
either a dealt shop (with the remaining deck and the disasters drawn
this round) or the game-end branch taken when the deck runs out. -/
inductive DealResult
  | dealt (deck : List Card) (shop : List Room) (drawn : List DisasterObj)
  | ended

/-- The disasters drawn during a deal. -/
def DealResult.drawnDisasters : DealResult → List DisasterObj
  | .dealt _ _ cur => cur
  | .ended => []

/-- The shop produced by a deal. -/
def DealResult.shopRooms : DealResult → List Room
  | .dealt _ shop _ => shop
  | .ended => []

/-- The `while self.shop.len() < self.num_shop` loop of
`GamePlay::update_game_states` (game/mod.rs lines 246-299): pop cards
from the end of the deck; a room goes to the shop; a disaster either
triggers the mulligan (when a disaster was already drawn this round and
no mulligan happened yet: the shop rooms and current disasters are
CLONED back into the deck, which is reshuffled via the `shuffleMull`
outcome, and the just-popped disaster is dropped) or is pushed onto
`current_disasters`.  `fuel` bounds the iteration (structural
recursion); every concrete run below terminates well within it. -/
def dealShopLoop (shuffleMull : List Card → List Card) :
    Nat → List Card → List Room → List DisasterObj → Bool → Nat → DealResult
  | 0, deck, shop, cur, _, _ => .dealt deck shop cur
  | fuel + 1, deck, shop, cur, mull, num_shop =>
    if shop.length < num_shop then
      match deck.getLast? with
      | Option.none => .ended
      | some card =>
          let deck1 := deck.dropLast
          match card with
          | .room r => dealShopLoop shuffleMull fuel deck1 (shop ++ [r]) cur mull num_shop
          | .disaster d =>
              if 0 < cur.length && !mull then
                let deck2 :=
                  shuffleMull (deck1 ++ shop.map Card.room ++ cur.map Card.disaster)
                dealShopLoop shuffleMull fuel deck2 shop cur true num_shop
              else
                dealShopLoop shuffleMull fuel deck1 shop (cur ++ [d]) mull num_shop
    else .dealt deck shop cur

/-- The first shop deal performed by `update_game_states` on a fresh
`GamePlay` (empty shop, `dealt_shop = false`, new round): run the
dealing loop on the deck.  The mulligan reshuffle outcome is the
identity permutation (it is never reached in the runs proved below). -/
def firstDeal (deck : List Card) (num_shop : Nat) : DealResult :=
  dealShopLoop (fun l => l) (2 * deck.length + num_shop + 2) deck [] [] false num_shop

/-- `GamePlay::place` (game/mod.rs lines 378-392).  Faithful to the
source order of effects: `self.shop.remove(shop_index)` executes BEFORE
`castle.place`, so when the castle placement fails the error propagates
with the shop already missing that room. -/
def GamePlay.place (g : GamePlay) (secret : Nat) (shop_index : Nat) (pos : Pos) :
    Except GameError Unit × GamePlay :=
  if shop_index < g.shop.length then
    match lookupAssoc g.players secret with
    | some p =>
        match p with
        | .action name castle limbo =>
            let room := g.shop.getD shop_index (Room.throne_room 0 "")
            let shop1 := g.shop.take shop_index ++ g.shop.drop (shop_index + 1)
            match castle.place room pos with
            | .ok c2 =>
                (.ok (), { g with shop := shop1,
                                  players := insertAssoc g.players secret (.action name c2 limbo) })
            | .error e => (.error (.castleError e), { g with shop := shop1 })
        | _ => (.error .invalidAction, g)
    | Option.none => (.error .invalidPlayer, g)
  else (.error .invalidShopIndex, g)

/-- The fields of `SchrodingerGameState` read by `is_turn_player`
(src/game/schrodinger.rs lines 17-30): the turn order, the turn index
and, per castle, the `damage` field of the `disastle_castle_rust`
castle (spec section 3: `damage: non-negative integer`). -/
structure SchrodingerGameState where
  turn_order : List String
  turn_index : Nat
  castles : List (String × Nat)

/-- `SchrodingerGameState::is_turn_player` (schrodinger.rs lines
283-291).  The source starts with `self.turn_order[self.turn_index]`,
a direct `Vec` index that PANICS when `turn_index` is out of bounds (in
particular whenever `turn_order` is empty); the panic is `Option.none`.
Otherwise the player is the turn player, or any player whose castle has
`damage > 0`. -/
def SchrodingerGameState.is_turn_player (g : SchrodingerGameState) (secret : String) :
    Option Bool :=
  match g.turn_order.get? g.turn_index with
  | Option.none => Option.none
  | some s =>
      if s = secret then some true
      else
        match lookupAssoc g.castles secret with
        | some damage => some (decide (0 < damage))
        | Option.none => some false

/-- Whether a castle operation returned `Ok`. -/
def exceptIsOk : Except CastleError Castle → Bool
  | .ok _ => true
  | .error _ => false

/-- Whether a panicking castle operation returned `Ok` (and did not
panic). -/
def optIsOk : Option (Except CastleError Castle) → Bool
  | some (.ok _) => true
  | _ => false

/-- The throne room used by `start_game`: all four sides `Any`. -/
def throne0 : Room := Room.throne_room 0 "Throne Room"

/-- A castle holding only the throne at `(0,0)`. -/
def castle0 : Castle := Castle.new throne0

/-- A plain room with all four sides `Any` (compatible with
everything occupied). -/
def roomA : Room :=
  { id := 1, name := "A", up := .any, right := .any, down := .any, left := .any }

/-- Apply `Castle::place` and keep the old castle on error (used only to
build concrete fixtures; every placement below in fact succeeds). -/
def placeD (c : Castle) (r : Room) (p : Pos) : Castle :=
  match c.place r p with
  | .ok c2 => c2
  | .error _ => c

/-- Throne at `(0,0)` plus a room at `(1,0)` with compatible sides. -/
def castle2 : Castle := placeD castle0 roomA (1, 0)

/-- The three-room line `(0,0)-(1,0)-(2,0)` with the throne at
`(0,0)`. -/
def castleLine3 : Castle := placeD castle2 roomA (2, 0)

/-- The room of spec scenario 1: `up=Diamond(false), down=Any,
left=None, right=None`. -/
def roomB : Room :=
  { id := 2, name := "B", up := .diamond false, right := .none, down := .any, left := .none }

/-- Scenario 1 castle: throne at `(0,0)`, `roomB` placed at `(0,1)`. -/
def castleB : Castle := placeD castle0 roomB (0, 1)

/-- A room whose up side is gold (`Diamond(true)`), facing the empty
cell `(0,2)` once placed at `(0,1)`. -/
def roomC : Room :=
  { id := 3, name := "C", up := .diamond true, right := .none, down := .any, left := .none }

/-- Throne at `(0,0)` plus `roomC` at `(0,1)`; the gold up side of
`roomC` faces the empty cell `(0,2)`. -/
def castleC : Castle := placeD castle0 roomC (0, 1)

/-- A disaster card payload (its damage formula is irrelevant to deck
construction). -/
def d0 : DisasterObj := { name := "d", damage := fun _ _ => 0 }

/-- Sixteen identical all-`Any` rooms: one possible outcome of
shuffling a 16-room catalog. -/
def rooms16 : List Room := List.replicate 16 roomA

/-- A running game: one player in the `Action` state holding `castle0`,
and a one-room shop. -/
def gp0 : GamePlay :=
  { turn := { turn_index := 0, turn_queue := [7] },
    players := [(7, .action "p" castle0 [])],
    deck := [], dealt_shop := true, num_shop := 5, shop := [roomA], discard := [],
    previous_disasters := [] }

/-- A Schrödinger state whose `turn_order` is empty. -/
def sgs0 : SchrodingerGameState := { turn_order := [], turn_index := 0, castles := [] }

/-- C1: the claim states `Castle::place` requires at least one occupied
compatible neighbor (`pos ∈ free_positions()`) and in particular that
placing at `(5,5)` when only `(0,0)` is occupied returns `InvalidPlace`.
The code disagrees: `place` checks only that `pos` is empty and that
every occupied neighbor is side-compatible, which holds vacuously at
`(5,5)`, so the placement SUCCEEDS even though `(5,5)` is not a free
position. -/
theorem place_without_neighbor_is_accepted :
    castle0.free_pos.contains (5, 5) = false
      ∧ (lookupAssoc castle0.rooms ((5 : Int), (5 : Int))).isNone = true
      ∧ exceptIsOk (castle0.place roomA (5, 5)) = true := by
  refine ⟨rfl, rfl, rfl⟩

/-- C2: the claim states that removing `(1,0)` from the three-room line
`(0,0)-(1,0)-(2,0)` returns `InvalidRemove` because `(2,0)` would be
orphaned.  The code disagrees: the throne is never added to the
connection graph by `Castle::new`, and `remove_valid` inspects the
neighbors of the removed index AFTER petgraph's swap-remove, so the
orphan check passes vacuously and `remove((1,0))` SUCCEEDS, leaving
`(2,0)` disconnected from the throne. -/
theorem remove_orphaning_is_accepted :
    castleLine3.rooms.map Prod.fst = [(0, 0), (1, 0), (2, 0)]
      ∧ optIsOk (castleLine3.remove (1, 0)) = true := by
  refine ⟨rfl, rfl⟩

/-- C3: the claim states `move_outer` proceeds exactly when the validity
conditions hold, and that `move((1,0),(0,1))` on the two-room castle
`(0,0)-(1,0)` succeeds.  The code disagrees: `move_outer` is guarded by
`!move_outer_valid(..)`, so on this input — where the validity predicate
is TRUE — it returns `InvalidMove`. -/
theorem move_outer_rejects_valid_move :
    castle2.move_outer_valid (1, 0) (0, 1) = true
      ∧ castle2.move_outer (1, 0) (0, 1) = some (.error .invalidMove) := by
  refine ⟨rfl, rfl⟩

/-- C4: the claim states mutators are transactional, in particular that
a failed `GamePlay::place` leaves the shop intact.  The code disagrees:
`self.shop.remove(shop_index)` runs before `castle.place`, so when the
castle placement fails (here: target `(0,0)` already occupied) the
error is returned with the shop already emptied of that room. -/
theorem gameplay_place_drops_shop_room_on_failure :
    gp0.shop = [roomA]
      ∧ (gp0.place 7 0 (0, 0)).1 = .error (.castleError .invalidPlace)
      ∧ (gp0.place 7 0 (0, 0)).2.shop = [] := by
  refine ⟨rfl, rfl, rfl⟩

/-- C5: the claim states the core never panics on caller-supplied data,
in particular that `Castle::swap` always returns `Ok` or `InvalidSwap`
and `is_turn_player` always returns a boolean.  The code disagrees:
`swap` proceeds when `swap_valid` is FALSE and then calls
`rooms.remove(&pos_1).unwrap()`, which panics for an unoccupied
position (`Option.none` below); and `is_turn_player` indexes
`turn_order[turn_index]`, which panics when `turn_order` is empty. -/
theorem swap_and_is_turn_player_panic :
    castle0.swap (5, 5) (6, 6) = Option.none
      ∧ sgs0.is_turn_player "p" = Option.none := by
  refine ⟨rfl, rfl⟩

/-- C6: the claim states `links()` classifies each edge once via the
facing sides of the two rooms and returns `(0,1,0,0)` for the scenario-1
castle (throne at `(0,0)`, `roomB` at `(0,1)`).  The code disagrees: the
directional `*_link` helpers read BOTH sides from the neighbor room
(never from `self`), so the single edge is classified `Diamond` from one
endpoint and `Any` from the other, and the truncating `/ 2` yields
`(0,0,0,0)`. -/
theorem links_miscounts_any_diamond_scenario :
    castleB.rooms.map Prod.fst = [(0, 0), (0, 1)]
      ∧ castleB.links = (0, 0, 0, 0) := by
  refine ⟨rfl, rfl⟩

/-- C7: the claim states a room with a gold side facing an empty cell is
unpowered, each direction being checked by its own power predicate.  The
code disagrees: `is_powered` calls `up_powered` for all four directions,
`up_powered` reads both sides from the neighbor, and a missing neighbor
contributes no constraint — so `roomC` at `(0,1)`, whose gold
`Diamond(true)` up side faces the empty cell `(0,2)`, is reported
POWERED. -/
theorem is_powered_ignores_missing_gold_neighbor :
    roomC.up = .diamond true
      ∧ (lookupAssoc castleC.rooms ((0 : Int), (2 : Int))).isNone = true
      ∧ castleC.is_powered (0, 1) = .ok true := by
  refine ⟨rfl, rfl, rfl⟩

/-- C8: the claim states `rotate_right`/`rotate_left` are pure
operations RETURNING a new Room that is the cyclic shift of the input,
with `rotate_right` four times and `rotate_right ∘ rotate_left` both the
identity.  The cyclic-shift value the code computes (the local `new`
binding) does satisfy both laws — but the Rust functions take `mut self`
by value, assign into the local copy and return `()`, so the rotated
room is dropped and nothing is returned to the caller. -/
theorem rotate_laws_hold_but_result_is_dropped :
    ∀ r : Room,
      r.rotate_right_new.rotate_right_new.rotate_right_new.rotate_right_new = r
        ∧ r.rotate_left_new.rotate_right_new = r
        ∧ r.rotate_right = () := by
  intro r
  cases r
  exact ⟨rfl, rfl, rfl⟩

/-- C9: the claim states `start_game` reserves exactly the last
`num_safe` shuffled rooms as a disaster-free segment, so with
`num_safe ≥ num_shop` the first shop deal never draws a disaster.  The
code disagrees: `rooms.split_off(num_safe)` hands the tail —
`rooms.length − num_safe` rooms, proved in the first conjunct — to the
safe segment.  With a 16-room catalog, `num_safe = 15 ≥ num_shop = 5`
and one disaster, the identity-permutation shuffle outcome leaves a
1-room safe segment and the disaster second from the top, and the very
first deal of 5 shop rooms draws it (third conjunct). -/
theorem safe_segment_wrong_size_first_deal_disaster :
    (∀ (rooms : List Room) (n : Nat), (startGameSafe rooms n).length = rooms.length - n)
      ∧ (startGameSafe rooms16 15).length = 1
      ∧ (firstDeal (startGameDeck rooms16 [Card.disaster d0] (fun l => l) 15)
            5).drawnDisasters.length = 1
      ∧ (firstDeal (startGameDeck rooms16 [Card.disaster d0] (fun l => l) 15)
            5).shopRooms.length = 5 := by
  refine ⟨?_, rfl, rfl, rfl⟩
  intro rooms n
  simp [startGameSafe]

/-- Inserting under a key looks up to the inserted value. -/
theorem lookupAssoc_insertAssoc_self {κ α : Type} [DecidableEq κ]
    (l : List (κ × α)) (k : κ) (v : α) :
    lookupAssoc (insertAssoc l k v) k = some v := by
  induction l with
  | nil => simp [insertAssoc, lookupAssoc]
  | cons hd t ih =>
    obtain ⟨k', v'⟩ := hd
    by_cases hk : k' = k
    · simp [insertAssoc, hk, lookupAssoc]
    · simp [insertAssoc, hk, lookupAssoc, ih]

/-- Inserting a fresh key grows the association list by one, matching
`HashMap::len` after `insert` of an absent key. -/
theorem length_insertAssoc_fresh {κ α : Type} [DecidableEq κ]
    (l : List (κ × α)) (k : κ) (v : α) (h : lookupAssoc l k = Option.none) :
    (insertAssoc l k v).length = l.length + 1 := by
  induction l with
  | nil => simp [insertAssoc]
  | cons hd t ih =>
    obtain ⟨k', v'⟩ := hd
    by_cases hk : k' = k
    · simp [lookupAssoc, hk] at h
    · simp [lookupAssoc, hk] at h
      simp [insertAssoc, hk, ih h]

/-- C10: `GameLobby::add_player` succeeds and inserts a new player while
fewer than 5 players are present — the very first player added becomes
the `Admin`, every later one a `Lobby` player — it returns `FullPlayers`
exactly when the lobby already holds 5 players, and the player count
never exceeds 5.  (`secret` is the freshly drawn `rand::random()`
value, assumed not to collide with an existing key.) -/
theorem addPlayer_spec (l : GameLobby) (secret : Nat) (name : String)
    (hfresh : lookupAssoc l.players secret = Option.none)
    (hle : l.players.length ≤ 5) :
    (l.players.length < 5 →
      (l.add_player secret name).1 = .ok secret
        ∧ lookupAssoc (l.add_player secret name).2.players secret =
            some (if l.players.length = 0 then PlayerState.admin name
                  else PlayerState.lobby name)
        ∧ (l.add_player secret name).2.players.length = l.players.length + 1)
      ∧ ((l.add_player secret name).1 = .error .fullPlayers ↔ l.players.length = 5)
      ∧ (l.add_player secret name).2.players.length ≤ 5 := by
  unfold GameLobby.add_player
  by_cases h0 : l.players.length = 0
  · simp [h0, lookupAssoc_insertAssoc_self, length_insertAssoc_fresh _ _ _ hfresh]
  · by_cases h5 : l.players.length < 5
    · simp [h0, h5, lookupAssoc_insertAssoc_self, length_insertAssoc_fresh _ _ _ hfresh]
      omega
    · have h5eq : l.players.length = 5 := by omega
      simp [h0, h5, h5eq]

/-- Witness for `addPlayer_spec` at the empty lobby and secret 1. -/
theorem addPlayer_spec_witness :
    (GameLobby.new.add_player 1 "p").1 = .ok 1
      ∧ (GameLobby.new.add_player 1 "p").2.players.length = 1 := by
  have h := addPlayer_spec GameLobby.new 1 "p" rfl (by decide)
  refine ⟨(h.1 (by decide)).1, ?_⟩
  have h2 := (h.1 (by decide)).2.2
  simpa using h2
